import Mathlib

/-!
# Atlas Codex — verification of the adaptive-scraping services

Shallow embedding of the two services of this repository:

* `src/packages/core/src/scrapling-service.py` — the `/scrape` endpoint with
  its adaptive-selector resolution and the in-memory adaptive store;
* `src/workers/browser-worker.py` — the `crawl_site` breadth-first crawler.

External collaborators (the scrapling fetchers, the Playwright browser) are
modelled as oracles: a fetch oracle maps the fetch call actually issued to
either a page or an exception message, and a page's `css` method maps a
selector string to either the list of matched elements' texts or an
exception message.  Python `float` cost arithmetic is modelled over `ℚ`
(the claims under check depend only on which decimal weights are summed,
not on binary rounding).  `datetime.now()` is modelled by ambient
parameters (`now` for the ISO timestamp string, `elapsed` for the measured
duration).

`get_domain_hash` is embedded in full: `urllib.parse.urlparse(url).netloc`
(CPython 3.11 `urlsplit`, restricted to the bracket-free URLs the claims
use — the `Invalid IPv6 URL` branch is not modelled) followed by a complete
executable MD5 over the UTF-8 bytes of the netloc.
-/

/-! ## Python dicts as association lists

`dlookup`/`dinsert` model `dict.get` and `dict.__setitem__` (overwrite in
place, append when the key is new). -/

def dlookup {α : Type} (k : String) : List (String × α) → Option α
  | [] => none
  | (k', v) :: rest => if k = k' then some v else dlookup k rest

def dinsert {α : Type} (k : String) (v : α) : List (String × α) → List (String × α)
  | [] => [(k, v)]
  | (k', v') :: rest => if k = k' then (k, v) :: rest else (k', v') :: dinsert k v rest

/-! ## MD5 (`hashlib.md5(...).hexdigest()`)

Machine words are `Nat` reduced mod `2 ^ 32`; `4294967295 ^^^ x` is bitwise
complement of a word `x < 2 ^ 32`. -/

def rotl32 (x n : Nat) : Nat := ((x <<< n) + (x >>> (32 - n))) % 4294967296

def md5K : List Nat := [
  3614090360, 3905402710, 606105819, 3250441966, 4118548399, 1200080426, 2821735955, 4249261313,
  1770035416, 2336552879, 4294925233, 2304563134, 1804603682, 4254626195, 2792965006, 1236535329,
  4129170786, 3225465664, 643717713, 3921069994, 3593408605, 38016083, 3634488961, 3889429448,
  568446438, 3275163606, 4107603335, 1163531501, 2850285829, 4243563512, 1735328473, 2368359562,
  4294588738, 2272392833, 1839030562, 4259657740, 2763975236, 1272893353, 4139469664, 3200236656,
  681279174, 3936430074, 3572445317, 76029189, 3654602809, 3873151461, 530742520, 3299628645,
  4096336452, 1126891415, 2878612391, 4237533241, 1700485571, 2399980690, 4293915773, 2240044497,
  1873313359, 4264355552, 2734768916, 1309151649, 4149444226, 3174756917, 718787259, 3951481745]

def md5S : List Nat := [
  7, 12, 17, 22, 7, 12, 17, 22,
  7, 12, 17, 22, 7, 12, 17, 22,
  5, 9, 14, 20, 5, 9, 14, 20,
  5, 9, 14, 20, 5, 9, 14, 20,
  4, 11, 16, 23, 4, 11, 16, 23,
  4, 11, 16, 23, 4, 11, 16, 23,
  6, 10, 15, 21, 6, 10, 15, 21,
  6, 10, 15, 21, 6, 10, 15, 21]

def md5Mix (i b c d : Nat) : Nat :=
  if i < 16 then (b &&& c) ||| ((4294967295 ^^^ b) &&& d)
  else if i < 32 then (d &&& b) ||| ((4294967295 ^^^ d) &&& c)
  else if i < 48 then b ^^^ c ^^^ d
  else c ^^^ (b ||| (4294967295 ^^^ d))

def md5Idx (i : Nat) : Nat :=
  if i < 16 then i
  else if i < 32 then (5 * i + 1) % 16
  else if i < 48 then (3 * i + 5) % 16
  else (7 * i) % 16

def md5Step (M : List Nat) (st : Nat × Nat × Nat × Nat) (i : Nat) : Nat × Nat × Nat × Nat :=
  match st with
  | (a, b, c, d) =>
    let f := (md5Mix i b c d + a + md5K.getD i 0 + M.getD (md5Idx i) 0) % 4294967296
    (d, (b + rotl32 f (md5S.getD i 0)) % 4294967296, b, c)

def md5Block (st : Nat × Nat × Nat × Nat) (M : List Nat) : Nat × Nat × Nat × Nat :=
  match st, (List.range 64).foldl (md5Step M) st with
  | (a0, b0, c0, d0), (a, b, c, d) =>
    ((a0 + a) % 4294967296, (b0 + b) % 4294967296,
     (c0 + c) % 4294967296, (d0 + d) % 4294967296)

/-- `k` bytes of `x`, little-endian. -/
def toLE : Nat → Nat → List Nat
  | 0, _ => []
  | k + 1, x => x % 256 :: toLE k (x / 256)

/-- Group a byte list (length a multiple of 4) into little-endian 32-bit words. -/
def leWords : List Nat → List Nat
  | b0 :: b1 :: b2 :: b3 :: rest => (b0 + 256 * (b1 + 256 * (b2 + 256 * b3))) :: leWords rest
  | _ => []

/-- Group a word list into 16-word blocks (structural recursion so that the
kernel can evaluate digests; padded input always has a multiple of 16 words). -/
def chunks16 : List Nat → List (List Nat)
  | w1 :: w2 :: w3 :: w4 :: w5 :: w6 :: w7 :: w8 ::
    w9 :: w10 :: w11 :: w12 :: w13 :: w14 :: w15 :: w16 :: rest =>
      [w1, w2, w3, w4, w5, w6, w7, w8, w9, w10, w11, w12, w13, w14, w15, w16] :: chunks16 rest
  | [] => []
  | l => [l]

/-- MD5 padding: a `0x80` byte, zeros to 56 mod 64, the bit length mod `2 ^ 64`
little-endian in 8 bytes. -/
def padBytes (msg : List Nat) : List Nat :=
  msg ++ 128 :: List.replicate ((55 + 64 - msg.length % 64) % 64) 0
      ++ toLE 8 (8 * msg.length % 18446744073709551616)

def md5Bytes (msg : List Nat) : List Nat :=
  match (chunks16 (leWords (padBytes msg))).foldl md5Block
      (1732584193, 4023233417, 2562383102, 271733878) with
  | (a, b, c, d) => toLE 4 a ++ toLE 4 b ++ toLE 4 c ++ toLE 4 d

def hexChar (n : Nat) : Char := if n < 10 then Char.ofNat (48 + n) else Char.ofNat (87 + n)

def md5hex (msg : List Nat) : String :=
  String.mk ((md5Bytes msg).flatMap (fun b => [hexChar (b / 16), hexChar (b % 16)]))

/-- UTF-8 encoding of one code point (`str.encode()`). -/
def utf8Char (c : Char) : List Nat :=
  let n := c.toNat
  if n < 128 then [n]
  else if n < 2048 then [192 + n / 64, 128 + n % 64]
  else if n < 65536 then [224 + n / 4096, 128 + n / 64 % 64, 128 + n % 64]
  else [240 + n / 262144, 128 + n / 4096 % 64, 128 + n / 64 % 64, 128 + n % 64]

def utf8Bytes (s : String) : List Nat := s.data.flatMap utf8Char

/-! ## `urlparse(url).netloc` (CPython 3.11 `urlsplit`) -/

/-- WHATWG C0-control-or-space characters, lstripped from the URL. -/
def whatwgStrip (c : Char) : Bool := c.toNat ≤ 32

/-- `_UNSAFE_URL_BYTES_TO_REMOVE`: tab, CR and LF are deleted everywhere. -/
def removedByte (c : Char) : Bool := c = '\t' || c = '\r' || c = '\n'

/-- `scheme_chars`: ASCII letters, digits, `+`, `-`, `.`. -/
def schemeChar (c : Char) : Bool := c.isAlpha || c.isDigit || c = '+' || c = '-' || c = '.'

/-- Split at the first `:` (`url.find(':')`): `some (before, after)` or `none`. -/
def splitColon : List Char → Option (List Char × List Char)
  | [] => none
  | c :: rest =>
    if c = ':' then some ([], rest)
    else match splitColon rest with
      | some (pre, post) => some (c :: pre, post)
      | none => none

/-- Strip `scheme:` when the first colon is at `i > 0`, the first character is
an ASCII letter and every character before the colon is a scheme character;
otherwise the URL is left unchanged. -/
def stripScheme (l : List Char) : List Char :=
  match splitColon l with
  | some ([], _) => l
  | some (c :: pre, post) => if c.isAlpha && (c :: pre).all schemeChar then post else l
  | none => l

/-- `_splitnetloc` delimiters. -/
def netlocDelim (c : Char) : Bool := c = '/' || c = '?' || c = '#'

/-- After scheme stripping, the netloc is what follows a leading `//` up to
the first `/`, `?` or `#`; URLs not starting with `//` have an empty netloc. -/
def netlocChars (l : List Char) : List Char :=
  match stripScheme l with
  | '/' :: '/' :: rest => rest.takeWhile (fun c => !netlocDelim c)
  | _ => []

def netloc (url : String) : String :=
  String.mk (netlocChars ((url.data.dropWhile whatwgStrip).filter (fun c => !removedByte c)))

/-- `get_domain_hash` (scrapling-service.py): MD5 hex digest of the UTF-8
bytes of `urlparse(url).netloc`. -/
def get_domain_hash (url : String) : String := md5hex (utf8Bytes (netloc url))

/-! ## scrapling-service.py — data model -/

/-- `AdaptiveSelector` (pydantic model). -/
structure AdaptiveSelector where
  original : String
  adapted : Option String
  confidence : ℚ
  last_updated : String
deriving DecidableEq

/-- One domain's stored selectors: `adaptive_store[domain_hash]`. -/
abbrev DomainSelectors := List (String × AdaptiveSelector)

/-- `adaptive_store : Dict[str, Dict[str, AdaptiveSelector]]`. -/
abbrev AdaptiveStore := List (String × DomainSelectors)

/-- A value stored in `extracted_data`: a Python `str` or `list[str]`. -/
inductive PyValue where
  | s (v : String)
  | l (vs : List String)
deriving DecidableEq

/-- `ScraplingRequest` (defaults as in the pydantic `Field`s). -/
structure ScraplingRequest where
  url : String
  strategy : String := "adaptive"
  selectors : Option (List (String × String)) := none
  auto_save : Bool := true
  javascript : Bool := false
  timeout : Nat := 30000
  headers : Option (List (String × String)) := none
deriving DecidableEq

/-- The duck-typed page the fetch capability returns: `css` is the selector
query, returning matched elements' texts or an exception message;
`status_code` is `none` when the attribute is missing (`getattr` default). -/
structure Page where
  css : String → Except String (List String)
  html : String
  title : String
  status_code : Option Nat

/-- The `metadata` dict; the failure path only sets `url` and `strategy`. -/
structure Metadata where
  url : String
  strategy : String
  title : Option String := none
  status_code : Option Nat := none
  content_length : Option Nat := none
  adaptive_enabled : Option Bool := none
deriving DecidableEq

/-- `ScraplingResponse`. -/
structure ScraplingResponse where
  success : Bool
  data : Option (List (String × PyValue))
  content : Option String
  metadata : Metadata
  adaptive_selectors : Option (List (String × String))
  cost : ℚ
  response_time : ℚ
  error : Option String
deriving DecidableEq

/-- The fetch call the orchestrator issues: which fetcher variant, the URL and
timeout, and whether the `render_js=True` kwarg was passed. -/
structure FetchCall where
  fetcherKind : String
  url : String
  timeout : Nat
  render_js : Bool
deriving DecidableEq

/-- Fetcher selection: `stealth` → StealthyFetcher, `async` → AsyncFetcher,
anything else → Fetcher. -/
def fetcherKindOf (strategy : String) : String :=
  if strategy = "stealth" then "stealth"
  else if strategy = "async" then "async"
  else "standard"

/-- The fetch call built in `scrape`: the async branch passes only the
timeout; otherwise `render_js` is passed exactly when the strategy is
`stealth` and `javascript` is set. -/
def fetchCallOf (req : ScraplingRequest) : FetchCall :=
  if req.strategy = "async" then ⟨"async", req.url, req.timeout, false⟩
  else ⟨fetcherKindOf req.strategy, req.url, req.timeout,
        req.strategy = "stealth" && req.javascript⟩

/-- Cost model: base `0.0001`, plus `0.0004` for the stealth strategy, plus
`0.0002` whenever `javascript` is set. -/
def scrapeCost (req : ScraplingRequest) : ℚ :=
  0.0001 + (if req.strategy = "stealth" then 0.0004 else 0)
         + (if req.javascript then 0.0002 else 0)

/-- Truthiness of `request.selectors` (`None` and `{}` are falsy). -/
def selectorsTruthy (req : ScraplingRequest) : Bool :=
  match req.selectors with
  | some sels => !sels.isEmpty
  | none => false

/-! ## scrapling-service.py — the selector loop -/

/-- State threaded through the `for key, selector in request.selectors.items()`
loop: `extracted_data`, `adaptive_selectors`, and the global `adaptive_store`. -/
structure LoopState where
  extracted : List (String × PyValue)
  adaptive : List (String × String)
  store : AdaptiveStore
deriving DecidableEq

/-- Value shaping: one element yields its text, several yield the text list. -/
def valueOf (elements : List String) : PyValue :=
  match elements with
  | [e] => .s e
  | es => .l es

/-- `adaptive_store[domain_hash][key] = v`, creating the inner dict if the
domain is new. -/
def storeWrite (store : AdaptiveStore) (domainHash key : String)
    (v : AdaptiveSelector) : AdaptiveStore :=
  dinsert domainHash (dinsert key v ((dlookup domainHash store).getD [])) store

/-- One iteration of the selector loop (scrapling-service.py lines 98–127).
`domainSelectors` is the snapshot `adaptive_store.get(domain_hash, {})` taken
before the loop.  The two `css` applications may raise; the per-field
`except` records `"Error: " ++ msg` for that field alone.  The stored adapted
selector is replayed only when the original yielded no elements, the store
has the key, and the adapted selector is truthy (non-`None`, non-empty). -/
def processField (css : String → Except String (List String))
    (domainHash : String) (domainSelectors : DomainSelectors)
    (autoSave : Bool) (now : String)
    (st : LoopState) (field : String × String) : LoopState :=
  let key := field.1
  let sel := field.2
  match css sel with
  | .error e => { st with extracted := dinsert key (.s ("Error: " ++ e)) st.extracted }
  | .ok elements =>
    let second : Except String (List String × List (String × String)) :=
      if elements.isEmpty then
        match dlookup key domainSelectors with
        | some m =>
          match m.adapted with
          | some asel =>
            if asel ≠ "" then
              match css asel with
              | .error e => .error e
              | .ok els2 => .ok (els2, dinsert key asel st.adaptive)
            else .ok (elements, st.adaptive)
          | none => .ok (elements, st.adaptive)
        | none => .ok (elements, st.adaptive)
      else .ok (elements, st.adaptive)
    match second with
    | .error e => { st with extracted := dinsert key (.s ("Error: " ++ e)) st.extracted }
    | .ok (elements, adaptive) =>
      if elements.isEmpty then { st with adaptive := adaptive }
      else
        { extracted := dinsert key (valueOf elements) st.extracted
          adaptive := adaptive
          store :=
            match autoSave, dlookup key adaptive with
            | true, some used =>
              storeWrite st.store domainHash key ⟨sel, some used, 0.95, now⟩
            | _, _ => st.store }

/-- The whole `if request.selectors:` block: resolve the site identity once,
snapshot the domain's stored selectors, and fold the per-field step over the
requested fields. -/
def runSelectors (page : Page) (req : ScraplingRequest) (store : AdaptiveStore)
    (now : String) : LoopState :=
  match req.selectors with
  | none => ⟨[], [], store⟩
  | some sels =>
    if sels.isEmpty then ⟨[], [], store⟩
    else
      let domainHash := get_domain_hash req.url
      sels.foldl
        (processField page.css domainHash ((dlookup domainHash store).getD [])
          req.auto_save now)
        ⟨[], [], store⟩

def successMeta (req : ScraplingRequest) (page : Page) : Metadata :=
  ⟨req.url, req.strategy, some page.title, some (page.status_code.getD 200),
   some page.html.length, some req.auto_save⟩

def failureMeta (req : ScraplingRequest) : Metadata :=
  ⟨req.url, req.strategy, none, none, none, none⟩

/-- The `/scrape` endpoint.  `oracle` is the external fetch capability (it
receives the fetch call actually issued and returns the page or raises);
`now` and `elapsed` stand for `datetime.now()`.  Returns the response
together with the adaptive store as left by the request (the store is global
module state in the source). -/
def scrape (oracle : FetchCall → Except String Page) (now : String) (elapsed : ℚ)
    (store : AdaptiveStore) (req : ScraplingRequest) :
    ScraplingResponse × AdaptiveStore :=
  match oracle (fetchCallOf req) with
  | .error e =>
    (⟨false, none, none, failureMeta req, none, 0, elapsed, some e⟩, store)
  | .ok page =>
    let st := runSelectors page req store now
    (⟨true,
      if st.extracted.isEmpty then none else some st.extracted,
      if selectorsTruthy req then none else some page.html,
      successMeta req page,
      if st.adaptive.isEmpty then none else some st.adaptive,
      scrapeCost req, elapsed, none⟩, st.store)

/-! ## browser-worker.py — crawl_site -/

/-- Outcome of `scrape_page.remote(url, options)`: the page data's discovered
links (absent when the `links` format was not requested), or an exception. -/
inductive FetchOutcome where
  | ok (links : Option (List String))
  | err (msg : String)

inductive PageStatus where
  | success
  | failed
deriving DecidableEq

/-- One entry of the crawl's `results` list. -/
structure PageResult where
  url : String
  status : PageStatus
  error : Option String
deriving DecidableEq

/-- `options` of `crawl_site`, with their Python defaults. -/
structure CrawlOptions where
  maxPages : Nat := 10
  includePatterns : List String := []
  excludePatterns : List String := []
  followLinks : Bool := false
deriving DecidableEq

structure CrawlStats where
  totalPages : Nat
  successfulPages : Nat
  failedPages : Nat
deriving DecidableEq

structure CrawlReport where
  stats : CrawlStats
  pages : List PageResult
deriving DecidableEq

/-- Python's `needle in haystack` substring test. -/
def containsSub (needle haystack : String) : Bool :=
  decide (needle.data <:+: haystack.data)

/-- The `while to_visit and len(results) < max_pages` loop of `crawl_site`.
`fetch` is the external `scrape_page` capability.  A popped URL already in
`visited` is skipped; otherwise it is added to `visited`, filtered against
the exclude then include substring patterns, and fetched; a fetch exception
records a failed entry; discovered links are enqueued when `followLinks` is
set, the link starts with `startUrl`, and it is not yet visited. -/
def crawlLoop (fetch : String → FetchOutcome) (opts : CrawlOptions) (startUrl : String)
    (visited : List String) (toVisit : List String) (results : List PageResult) :
    List PageResult :=
  match toVisit with
  | [] => results
  | url :: rest =>
    if h : results.length < opts.maxPages then
      if url ∈ visited then
        crawlLoop fetch opts startUrl visited rest results
      else
        let visited' := url :: visited
        if !opts.excludePatterns.isEmpty
            && opts.excludePatterns.any (fun p => containsSub p url) then
          crawlLoop fetch opts startUrl visited' rest results
        else if !opts.includePatterns.isEmpty
            && !opts.includePatterns.any (fun p => containsSub p url) then
          crawlLoop fetch opts startUrl visited' rest results
        else
          match fetch url with
          | .ok links =>
            let newLinks :=
              if opts.followLinks then
                (links.getD []).filter
                  (fun l => l.startsWith startUrl && !visited'.contains l)
              else []
            crawlLoop fetch opts startUrl visited' (rest ++ newLinks)
              (results ++ [⟨url, .success, none⟩])
          | .err msg =>
            crawlLoop fetch opts startUrl visited' rest
              (results ++ [⟨url, .failed, some msg⟩])
    else results
termination_by (opts.maxPages - results.length, toVisit.length)

/-- `crawl_site(start_url, options)`: run the loop from the seeded frontier
and aggregate the stats. -/
def crawl_site (fetch : String → FetchOutcome) (startUrl : String)
    (opts : CrawlOptions) : CrawlReport :=
  let results := crawlLoop fetch opts startUrl [] [startUrl] []
  ⟨⟨results.length,
    results.countP (fun r => r.status == PageStatus.success),
    results.countP (fun r => r.status == PageStatus.failed)⟩,
   results⟩

/-! ## Dictionary lemmas -/

theorem dlookup_dinsert_self {α : Type} (k : String) (v : α) (l : List (String × α)) :
    dlookup k (dinsert k v l) = some v := by
  induction l with
  | nil => simp [dinsert, dlookup]
  | cons p rest ih =>
    rcases p with ⟨k', v'⟩
    by_cases h : k = k' <;> simp [dinsert, dlookup, h, ih]

theorem dlookup_dinsert_ne {α : Type} (k q : String) (v : α) (l : List (String × α))
    (h : k ≠ q) : dlookup k (dinsert q v l) = dlookup k l := by
  induction l with
  | nil => simp [dinsert, dlookup, h]
  | cons p rest ih =>
    rcases p with ⟨k', v'⟩
    by_cases hq : q = k'
    · subst hq
      simp [dinsert, dlookup, h]
    · by_cases hk : k = k' <;> simp [dinsert, dlookup, hq, hk, ih]

/-- The mapping a `storeWrite` leaves for its own key. -/
theorem storeWrite_lookup (store : AdaptiveStore) (domainHash key : String)
    (v : AdaptiveSelector) :
    dlookup key ((dlookup domainHash (storeWrite store domainHash key v)).getD [])
      = some v := by
  simp [storeWrite, dlookup_dinsert_self]

/-- Shared: whenever the fetch oracle returns a page, `scrape` answers with
`success = true` — per-field outcomes never fail the request. -/
theorem scrape_success_of_ok (oracle : FetchCall → Except String Page)
    (now : String) (elapsed : ℚ) (store : AdaptiveStore) (req : ScraplingRequest)
    (page : Page) (h : oracle (fetchCallOf req) = .ok page) :
    (scrape oracle now elapsed store req).1.success = true := by
  simp [scrape, h]

/-! ## Claims about the selector resolution engine -/

/-- C1: when the requested selector matches nothing, a stored mapping for the
field holds a truthy adapted selector, and that adapted selector matches,
the field's value is shaped from the adapted selector's matches, the field
is listed among the adaptive selectors used (`was_adapted`), and under
`auto_save` the store mapping for `(site identity, field)` is overwritten
with `original` = requested selector, `adapted` = selector actually used,
confidence `0.95`, and the current timestamp. -/
theorem adapted_selector_hit (css : String → Except String (List String))
    (domainHash : String) (ds : DomainSelectors) (autoSave : Bool) (now : String)
    (st : LoopState) (key sel asel : String) (m : AdaptiveSelector)
    (els : List String)
    (h0 : css sel = .ok [])
    (h1 : dlookup key ds = some m)
    (h2 : m.adapted = some asel)
    (h3 : asel ≠ "")
    (h4 : css asel = .ok els)
    (h5 : els ≠ []) :
    dlookup key (processField css domainHash ds autoSave now st (key, sel)).extracted
        = some (valueOf els) ∧
    dlookup key (processField css domainHash ds autoSave now st (key, sel)).adaptive
        = some asel ∧
    (autoSave = true →
      dlookup key
        ((dlookup domainHash
            (processField css domainHash ds autoSave now st (key, sel)).store).getD [])
        = some ⟨sel, some asel, 0.95, now⟩) := by
  obtain ⟨e, es, rfl⟩ := List.exists_cons_of_ne_nil h5
  cases autoSave <;>
    simp [processField, h0, h1, h2, h3, h4, dlookup_dinsert_self, storeWrite_lookup]

/-- C2: when the requested selector matches at least one element it is applied
as-is (the field's value is shaped from its matches), the field is not
reported as adapted, the store is not written, and the outcome does not
depend on the stored selectors for the site at all. -/
theorem requested_selector_hit (css : String → Except String (List String))
    (domainHash : String) (ds ds' : DomainSelectors) (autoSave : Bool) (now : String)
    (st : LoopState) (key sel : String) (els : List String)
    (h0 : css sel = .ok els)
    (h1 : els ≠ [])
    (h2 : dlookup key st.adaptive = none) :
    processField css domainHash ds autoSave now st (key, sel)
        = processField css domainHash ds' autoSave now st (key, sel) ∧
    (processField css domainHash ds autoSave now st (key, sel)).extracted
        = dinsert key (valueOf els) st.extracted ∧
    (processField css domainHash ds autoSave now st (key, sel)).adaptive = st.adaptive ∧
    (processField css domainHash ds autoSave now st (key, sel)).store = st.store := by
  obtain ⟨e, es, rfl⟩ := List.exists_cons_of_ne_nil h1
  simp [processField, h0, h2]

/-! ## Concrete fixtures used by witnesses and counterexamples -/

/-- A css oracle where only the selector `.t` matches. -/
def wCss : String → Except String (List String) :=
  fun s => if s = ".t" then Except.ok ["x"] else Except.ok []

/-- A stored mapping for the field `title` whose adapted selector is `.t`. -/
def wDs : DomainSelectors := [("title", ⟨"h1", some ".t", 0.95, "t0"⟩)]

/-- A page on which no selector matches anything. -/
def emptyPage : Page := ⟨fun _ => Except.ok [], "<html></html>", "Title", some 200⟩

/-- A request asking for one field. -/
def selReq : ScraplingRequest :=
  ⟨"http://example.com", "adaptive", some [("title", "h1")], true, false, 30000, none⟩

/-- A non-stealth request with `javascript = true`. -/
def jsReq : ScraplingRequest :=
  ⟨"http://example.com", "adaptive", none, true, true, 30000, none⟩

/-- A store holding an adapted selector `h2` for `example.com`'s `title`. -/
def c3store : AdaptiveStore :=
  [(get_domain_hash "http://example.com", [("title", ⟨"h1", some "h2", 0.95, "t0"⟩)])]

/-- Witness for C1: the concrete field `(title, h1)` on `wCss` with `wDs`. -/
theorem adapted_selector_hit_witness :
    wCss "h1" = Except.ok [] ∧
    (dlookup "title"
        (processField wCss "d" wDs true "t1" ⟨[], [], []⟩ ("title", "h1")).extracted
        = some (valueOf ["x"]) ∧
     dlookup "title"
        (processField wCss "d" wDs true "t1" ⟨[], [], []⟩ ("title", "h1")).adaptive
        = some ".t" ∧
     (true = true →
       dlookup "title"
         ((dlookup "d"
             (processField wCss "d" wDs true "t1" ⟨[], [], []⟩ ("title", "h1")).store).getD [])
         = some ⟨"h1", some ".t", 0.95, "t1"⟩)) :=
  ⟨rfl, adapted_selector_hit wCss "d" wDs true "t1" ⟨[], [], []⟩ "title" "h1" ".t"
    ⟨"h1", some ".t", 0.95, "t0"⟩ ["x"] rfl rfl rfl (by decide) rfl (by decide)⟩

/-- Witness for C2: the field `(title, .t)` matches directly; the outcome is
the same under two different stored-selector snapshots. -/
theorem requested_selector_hit_witness :
    wCss ".t" = Except.ok ["x"] ∧
    (processField wCss "d" wDs true "t1" ⟨[], [], []⟩ ("title", ".t")
        = processField wCss "d" [] true "t1" ⟨[], [], []⟩ ("title", ".t") ∧
     (processField wCss "d" wDs true "t1" ⟨[], [], []⟩ ("title", ".t")).extracted
        = dinsert "title" (valueOf ["x"]) [] ∧
     (processField wCss "d" wDs true "t1" ⟨[], [], []⟩ ("title", ".t")).adaptive = [] ∧
     (processField wCss "d" wDs true "t1" ⟨[], [], []⟩ ("title", ".t")).store = []) :=
  ⟨rfl, requested_selector_hit wCss "d" wDs [] true "t1" ⟨[], [], []⟩ "title" ".t" ["x"]
    rfl (by decide) rfl⟩

/-- C6: a field whose selector application raises is recorded as the error
value `"Error: " ++ msg` for that field alone — the rest of the loop state is
untouched, other fields' entries are unchanged, and a request whose fetch
succeeded still reports `success = true`. -/
theorem selector_failure_isolated (css : String → Except String (List String))
    (domainHash : String) (ds : DomainSelectors) (autoSave : Bool) (now : String)
    (st : LoopState) (key sel e : String)
    (h0 : css sel = .error e) :
    processField css domainHash ds autoSave now st (key, sel)
        = { st with extracted := dinsert key (.s ("Error: " ++ e)) st.extracted } ∧
    (∀ k, k ≠ key →
      dlookup k (processField css domainHash ds autoSave now st (key, sel)).extracted
        = dlookup k st.extracted) ∧
    (∀ oracle now' elapsed store req page,
      oracle (fetchCallOf req) = Except.ok page →
      (scrape oracle now' elapsed store req).1.success = true) := by
  refine ⟨by simp [processField, h0], ?_, ?_⟩
  · intro k hk
    simp [processField, h0, dlookup_dinsert_ne _ _ _ _ hk]
  · intro oracle now' elapsed store req page h
    exact scrape_success_of_ok oracle now' elapsed store req page h

/-- Witness for C6: a raising selector on one field. -/
theorem selector_failure_isolated_witness :
    (fun (_ : String) => (Except.error "bad css" : Except String (List String))) "h1"
        = Except.error "bad css" ∧
    (processField (fun _ => Except.error "bad css") "d" [] true "t1"
        ⟨[("other", .s "v")], [], []⟩ ("title", "h1")
      = { extracted := dinsert "title" (.s "Error: bad css") [("other", .s "v")],
          adaptive := [], store := [] } ∧
     ("other" ≠ "title" ∧
      dlookup "other"
        (processField (fun _ => Except.error "bad css") "d" [] true "t1"
          ⟨[("other", .s "v")], [], []⟩ ("title", "h1")).extracted
        = dlookup "other" [("other", .s "v")]) ∧
     ((fun (_ : FetchCall) => (Except.ok emptyPage : Except String Page)) (fetchCallOf selReq)
          = Except.ok emptyPage ∧
      (scrape (fun _ => Except.ok emptyPage) "t1" 0 [] selReq).1.success = true)) := by
  have T := selector_failure_isolated (fun _ => Except.error "bad css") "d" [] true "t1"
    ⟨[("other", .s "v")], [], []⟩ "title" "h1" "bad css" rfl
  exact ⟨rfl, T.1, ⟨by decide, T.2.1 "other" (by decide)⟩,
    ⟨rfl, T.2.2 (fun _ => Except.ok emptyPage) "t1" 0 [] selReq emptyPage rfl⟩⟩

/-- C5: when the fetch capability raises, `scrape` returns the failure
envelope — `success = false`, the exception message as `error`, no data, no
content, no adaptive selectors, `cost = 0` — and leaves the store untouched;
a non-empty exception message yields a non-empty error. -/
theorem fetch_failure_envelope (oracle : FetchCall → Except String Page)
    (now : String) (elapsed : ℚ) (store : AdaptiveStore) (req : ScraplingRequest)
    (msg : String)
    (h : oracle (fetchCallOf req) = .error msg) :
    scrape oracle now elapsed store req
        = (⟨false, none, none, failureMeta req, none, 0, elapsed, some msg⟩, store) ∧
    (msg ≠ "" → (scrape oracle now elapsed store req).1.error ≠ some "") := by
  refine ⟨by simp [scrape, h], ?_⟩
  intro hm
  simp [scrape, h, hm]

/-- Witness for C5: a fetch oracle that raises a timeout. -/
theorem fetch_failure_envelope_witness :
    (fun (_ : FetchCall) => (Except.error "Navigation timeout" : Except String Page))
        (fetchCallOf selReq) = Except.error "Navigation timeout" ∧
    scrape (fun _ => Except.error "Navigation timeout") "t1" 0 [] selReq
        = (⟨false, none, none, failureMeta selReq, none, 0, 0, some "Navigation timeout"⟩,
           []) ∧
    ("Navigation timeout" ≠ "" ∧
     (scrape (fun _ => Except.error "Navigation timeout") "t1" 0 [] selReq).1.error
        ≠ some "") := by
  have T := fetch_failure_envelope (fun _ => Except.error "Navigation timeout")
    "t1" 0 [] selReq "Navigation timeout" rfl
  exact ⟨rfl, T.1, by decide, T.2 (by decide)⟩

/-- C3 counterexample: on a page where neither the requested `h1` nor the
stored adapted `h2` matches anything, the response still lists the field
under `adaptive_selectors` although zero matches were obtained — refuting
that `was_adapted` is reported only when the adapted selector yielded at
least one match. -/
theorem adaptation_reported_without_match :
    ((scrape (fun _ => Except.ok emptyPage) "t1" 0 c3store selReq).1.adaptive_selectors,
     (scrape (fun _ => Except.ok emptyPage) "t1" 0 c3store selReq).1.data,
     (scrape (fun _ => Except.ok emptyPage) "t1" 0 c3store selReq).1.success)
      = (some [("title", "h2")], none, true) := by
  decide

/-- C3 as amended: when the requested selector matches nothing and a stored
truthy adapted selector also matches nothing, the field is left absent from
the extracted data and the store is not written, and no error is raised for
the request — but the field IS recorded under the adaptive selectors used,
even though the adapted selector yielded no matches. -/
theorem adapted_selector_attempted_no_match (css : String → Except String (List String))
    (domainHash : String) (ds : DomainSelectors) (autoSave : Bool) (now : String)
    (st : LoopState) (key sel asel : String) (m : AdaptiveSelector)
    (h0 : css sel = .ok [])
    (h1 : dlookup key ds = some m)
    (h2 : m.adapted = some asel)
    (h3 : asel ≠ "")
    (h4 : css asel = .ok []) :
    processField css domainHash ds autoSave now st (key, sel)
        = { st with adaptive := dinsert key asel st.adaptive } ∧
    (∀ oracle now' elapsed store req page,
      oracle (fetchCallOf req) = Except.ok page →
      (scrape oracle now' elapsed store req).1.success = true) := by
  refine ⟨by simp [processField, h0, h1, h2, h3, h4], ?_⟩
  intro oracle now' elapsed store req page h
  exact scrape_success_of_ok oracle now' elapsed store req page h

/-- Witness for the amended C3 at the concrete field `(title, h1)` with the
stored adapted selector `h2`, both matching nothing. -/
theorem adapted_selector_attempted_no_match_witness :
    emptyPage.css "h1" = Except.ok [] ∧
    (processField emptyPage.css "d" [("title", ⟨"h1", some "h2", 0.95, "t0"⟩)] true "t1"
        ⟨[], [], []⟩ ("title", "h1")
      = { extracted := [], adaptive := dinsert "title" "h2" [], store := [] } ∧
     ((fun (_ : FetchCall) => (Except.ok emptyPage : Except String Page)) (fetchCallOf selReq)
          = Except.ok emptyPage ∧
      (scrape (fun _ => Except.ok emptyPage) "t1" 0 [] selReq).1.success = true)) := by
  have T := adapted_selector_attempted_no_match emptyPage.css "d"
    [("title", ⟨"h1", some "h2", 0.95, "t0"⟩)] true "t1" ⟨[], [], []⟩
    "title" "h1" "h2" ⟨"h1", some "h2", 0.95, "t0"⟩ rfl rfl rfl (by decide) rfl
  exact ⟨rfl, T.1,
    ⟨rfl, T.2 (fun _ => Except.ok emptyPage) "t1" 0 [] selReq emptyPage rfl⟩⟩

/-- C4 counterexample: a successful scrape that requested selectors but
extracted nothing returns with `data` and `content` both absent — refuting
"never a success with both absent". -/
theorem success_with_both_absent :
    ((scrape (fun _ => Except.ok emptyPage) "t0" 0 [] selReq).1.success,
     (scrape (fun _ => Except.ok emptyPage) "t0" 0 [] selReq).1.data,
     (scrape (fun _ => Except.ok emptyPage) "t0" 0 [] selReq).1.content)
      = (true, none, none) := by
  decide

/-- C4 as amended: on failure, `error` is populated and `data`/`content` are
absent; on success, `error` is absent and `data` and `content` are never both
populated — but both may be absent, which happens only when selectors were
requested (truthy) and no field produced a value. -/
theorem response_population (oracle : FetchCall → Except String Page)
    (now : String) (elapsed : ℚ) (store : AdaptiveStore) (req : ScraplingRequest) :
    ((scrape oracle now elapsed store req).1.success = false →
      ((scrape oracle now elapsed store req).1.error).isSome = true ∧
      (scrape oracle now elapsed store req).1.data = none ∧
      (scrape oracle now elapsed store req).1.content = none) ∧
    ((scrape oracle now elapsed store req).1.success = true →
      (scrape oracle now elapsed store req).1.error = none ∧
      ((scrape oracle now elapsed store req).1.data = none ∨
       (scrape oracle now elapsed store req).1.content = none) ∧
      ((scrape oracle now elapsed store req).1.data = none →
       (scrape oracle now elapsed store req).1.content = none →
       selectorsTruthy req = true)) := by
  cases h : oracle (fetchCallOf req) with
  | error e => simp [scrape, h]
  | ok page =>
    have hempty : selectorsTruthy req = false →
        (runSelectors page req store now).extracted = [] := by
      intro hf
      unfold runSelectors
      unfold selectorsTruthy at hf
      cases hs : req.selectors with
      | none => rfl
      | some sels => cases sels <;> simp_all
    by_cases ht : selectorsTruthy req
    · simp [scrape, h, ht]
    · have hb := hempty (by simp_all)
      simp [scrape, h, ht, hb]

/-- Witness for the amended C4: a success with content only (no selectors
requested), checked against a failure instance as well. -/
theorem response_population_witness :
    ((scrape (fun _ => Except.ok emptyPage) "t0" 0 [] jsReq).1.success = true ∧
     (scrape (fun _ => Except.ok emptyPage) "t0" 0 [] jsReq).1.error = none ∧
     ((scrape (fun _ => Except.ok emptyPage) "t0" 0 [] jsReq).1.data = none ∨
      (scrape (fun _ => Except.ok emptyPage) "t0" 0 [] jsReq).1.content = none)) ∧
    ((scrape (fun _ => Except.error "boom") "t0" 0 [] jsReq).1.success = false ∧
     (((scrape (fun _ => Except.error "boom") "t0" 0 [] jsReq).1.error).isSome = true ∧
      (scrape (fun _ => Except.error "boom") "t0" 0 [] jsReq).1.data = none)) := by
  have T1 := response_population (fun _ => Except.ok emptyPage) "t0" 0 [] jsReq
  have T2 := response_population (fun _ => Except.error "boom") "t0" 0 [] jsReq
  have h1 := T1.2 (by decide)
  have h2 := T2.1 (by decide)
  exact ⟨⟨by decide, h1.1, h1.2.1⟩, ⟨by decide, h2.1, h2.2.1⟩⟩

/-- C10: for a request with `javascript = true` under any strategy other than
`stealth`, the fetch call carries no JavaScript-rendering flag, yet the
reported cost still includes the `0.0002` JavaScript weight. -/
theorem javascript_cost_without_render (req : ScraplingRequest)
    (h1 : req.javascript = true) (h2 : req.strategy ≠ "stealth") :
    (fetchCallOf req).render_js = false ∧
    scrapeCost req = scrapeCost { req with javascript := false } + 0.0002 ∧
    (∀ oracle now elapsed store page,
      oracle (fetchCallOf req) = Except.ok page →
      (scrape oracle now elapsed store req).1.cost = scrapeCost req) := by
  refine ⟨?_, ?_, ?_⟩
  · by_cases ha : req.strategy = "async" <;> simp [fetchCallOf, ha, h2]
  · simp [scrapeCost, h1, h2]
  · intro oracle now elapsed store page h
    simp [scrape, h]

/-- Witness for C10 at a concrete non-stealth JavaScript request. -/
theorem javascript_cost_without_render_witness :
    jsReq.javascript = true ∧
    ((fetchCallOf jsReq).render_js = false ∧
     scrapeCost jsReq = scrapeCost { jsReq with javascript := false } + 0.0002 ∧
     (scrape (fun _ => Except.ok emptyPage) "t0" 0 [] jsReq).1.cost = scrapeCost jsReq) := by
  have T := javascript_cost_without_render jsReq rfl (by decide)
  exact ⟨rfl, T.1, T.2.1,
    T.2.2 (fun _ => Except.ok emptyPage) "t0" 0 [] emptyPage rfl⟩

/-! ## Claims about the site identity resolver -/

/-- ASCII letters are not stripped by the WHATWG lstrip. -/
theorem alpha_not_strip (c : Char) (h : c.isAlpha = true) : whatwgStrip c = false := by
  simp [Char.isAlpha, Char.isUpper, Char.isLower] at h
  have h33 : 33 ≤ c.toNat := by
    rcases h with ⟨h1, _⟩ | ⟨h1, _⟩
    · exact le_trans (by norm_num) (UInt32.le_toNat_of_le (by norm_num) h1)
    · exact le_trans (by norm_num) (UInt32.le_toNat_of_le (by norm_num) h1)
  simp only [whatwgStrip, decide_eq_false_iff_not]
  omega

/-- Scheme characters are never tab, CR or LF. -/
theorem schemeChar_not_removed (c : Char) (h : schemeChar c = true) :
    removedByte c = false := by
  cases hr : removedByte c
  · rfl
  · exfalso
    simp [removedByte] at hr
    rcases hr with (rfl | rfl) | rfl <;> exact absurd h (by decide)

/-- Scheme characters are never a colon. -/
theorem schemeChar_ne_colon (c : Char) (h : schemeChar c = true) : c ≠ ':' := by
  intro hc
  rw [hc] at h
  exact absurd h (by decide)

/-- `splitColon` splits a colon-free chunk off at the explicit colon. -/
theorem splitColon_append (s rest : List Char) (h : ':' ∉ s) :
    splitColon (s ++ ':' :: rest) = some (s, rest) := by
  induction s with
  | nil => simp [splitColon]
  | cons c cs ih =>
    have hc : ¬(c = ':') := fun hh => h (hh ▸ List.mem_cons_self c cs)
    have hcs : ':' ∉ cs := fun hm => h (List.mem_cons_of_mem _ hm)
    simp [splitColon, hc, ih hcs]

/-- `takeWhile` runs past a block that satisfies the predicate throughout. -/
theorem takeWhile_append_all (p : Char → Bool) (l1 l2 : List Char)
    (h : ∀ c ∈ l1, p c = true) :
    (l1 ++ l2).takeWhile p = l1 ++ l2.takeWhile p := by
  induction l1 with
  | nil => simp
  | cons c cs ih =>
    simp [List.takeWhile_cons, h c (List.mem_cons_self c cs),
      ih (fun x hx => h x (List.mem_cons_of_mem _ hx))]

/-- Truthiness of a scheme part: nonempty, leading ASCII letter, all scheme
characters — exactly the condition under which `urlsplit` strips it. -/
def validScheme (s : String) : Bool :=
  match s.data with
  | [] => false
  | c :: rest => c.isAlpha && (c :: rest).all schemeChar

/-- A host chunk free of netloc delimiters and removed bytes (ports, userinfo
and IP literals without brackets are all allowed). -/
def validHost (h : String) : Bool :=
  h.data.all (fun c => !netlocDelim c && !removedByte c)

/-- A path-query-fragment part: either empty or starting with `/`, `?` or `#`. -/
def validPath (p : String) : Bool :=
  match p.data with
  | [] => true
  | c :: _ => netlocDelim c

/-- Assembling `scheme://host path` parses back to exactly that host. -/
theorem netloc_make (s host p : String)
    (hs : validScheme s = true) (hh : validHost host = true)
    (hp : validPath p = true) :
    netloc (s ++ "://" ++ host ++ p) = host := by
  obtain ⟨c0, cs, hdata⟩ : ∃ c0 cs, s.data = c0 :: cs := by
    cases hd : s.data with
    | nil =>
      unfold validScheme at hs
      rw [hd] at hs
      simp at hs
    | cons a l => exact ⟨a, l, rfl⟩
  have hsch : ∀ c ∈ s.data, schemeChar c = true := by
    unfold validScheme at hs
    rw [hdata] at hs
    intro c hc
    rw [hdata] at hc
    exact (List.all_eq_true.mp (Bool.and_elim_right hs)) c hc
  have halpha : c0.isAlpha = true := by
    unfold validScheme at hs
    rw [hdata] at hs
    exact Bool.and_elim_left hs
  have hhost : ∀ c ∈ host.data, netlocDelim c = false ∧ removedByte c = false := by
    intro c hc
    have hb := (List.all_eq_true.mp hh) c hc
    simp only [Bool.and_eq_true, Bool.not_eq_true'] at hb
    exact hb
  have hcolon : ':' ∉ s.data := fun hmem => schemeChar_ne_colon ':' (hsch ':' hmem) rfl
  have hurl : (s ++ "://" ++ host ++ p).data
      = s.data ++ ':' :: '/' :: '/' :: (host.data ++ p.data) := by
    have h1 : ("://" : String).data = [':', '/', '/'] := rfl
    simp [String.data_append, h1]
  have hdrop : List.dropWhile whatwgStrip
        (s.data ++ ':' :: '/' :: '/' :: (host.data ++ p.data))
      = s.data ++ ':' :: '/' :: '/' :: (host.data ++ p.data) := by
    rw [hdata, List.cons_append, List.dropWhile_cons, alpha_not_strip c0 halpha]
    simp
  have hfilter : List.filter (fun c => !removedByte c)
        (s.data ++ ':' :: '/' :: '/' :: (host.data ++ p.data))
      = s.data ++ ':' :: '/' :: '/' :: (host.data
          ++ List.filter (fun c => !removedByte c) p.data) := by
    rw [List.filter_append]
    rw [List.filter_eq_self.mpr (fun a ha => by
      simp [schemeChar_not_removed a (hsch a ha)])]
    have h1 : List.filter (fun c => !removedByte c)
          (':' :: '/' :: '/' :: (host.data ++ p.data))
        = ':' :: '/' :: '/' :: (host.data
            ++ List.filter (fun c => !removedByte c) p.data) := by
      simp only [List.filter_cons]
      rw [List.filter_append]
      rw [List.filter_eq_self.mpr (fun a ha => by simp [(hhost a ha).2])]
      simp [removedByte]
    rw [h1]
  have hstrip : stripScheme (s.data ++ ':' :: '/' :: '/' :: (host.data
        ++ List.filter (fun c => !removedByte c) p.data))
      = '/' :: '/' :: (host.data ++ List.filter (fun c => !removedByte c) p.data) := by
    unfold stripScheme
    rw [splitColon_append s.data _ hcolon]
    rw [hdata]
    simp [halpha, List.all_eq_true.mpr (hdata ▸ hsch)]
  have htake : List.takeWhile (fun c => !netlocDelim c)
        (host.data ++ List.filter (fun c => !removedByte c) p.data) = host.data := by
    rw [takeWhile_append_all _ _ _ (fun c hc => by simp [(hhost c hc).1])]
    have hzero : List.takeWhile (fun c => !netlocDelim c)
        (List.filter (fun c => !removedByte c) p.data) = [] := by
      unfold validPath at hp
      cases hd : p.data with
      | nil => simp
      | cons d ds =>
        rw [hd] at hp
        have hdel : netlocDelim d = true := hp
        have hrem : removedByte d = false := by
          cases hr : removedByte d
          · rfl
          · exfalso
            simp [removedByte] at hr
            rcases hr with (rfl | rfl) | rfl <;> exact absurd hdel (by decide)
        simp [List.filter_cons, hrem, List.takeWhile_cons, hdel]
    rw [hzero, List.append_nil]
  unfold netloc netlocChars
  rw [hurl, hdrop, hfilter, hstrip]
  show String.mk (List.takeWhile (fun c => !netlocDelim c)
    (host.data ++ List.filter (fun c => !removedByte c) p.data)) = host
  rw [htake]


/-- C7 counterexample: two URLs whose hosts differ only in letter case parse
to case-distinct netlocs and receive different site identities — `urlparse`
does not lowercase the authority, so the resolver is case-sensitive. -/
theorem site_identity_case_sensitive :
    netloc "http://EXAMPLE.com/a" = "EXAMPLE.com" ∧
    netloc "http://example.com/b" = "example.com" ∧
    get_domain_hash "http://EXAMPLE.com/a" ≠ get_domain_hash "http://example.com/b" := by
  refine ⟨by decide, by decide, by decide⟩

/-- C7 as amended: the site identity is keyed on the exact netloc string —
URLs with equal netlocs (in particular, URLs differing only in scheme or in
path/query/fragment) receive the same identity; case variations of the host
are not normalized away. -/
theorem site_identity_host_keyed :
    (∀ u1 u2 : String, netloc u1 = netloc u2 →
      get_domain_hash u1 = get_domain_hash u2) ∧
    (∀ s1 s2 host p1 p2 : String,
      validScheme s1 = true → validScheme s2 = true → validHost host = true →
      validPath p1 = true → validPath p2 = true →
      get_domain_hash (s1 ++ "://" ++ host ++ p1)
        = get_domain_hash (s2 ++ "://" ++ host ++ p2)) := by
  constructor
  · intro u1 u2 h
    unfold get_domain_hash
    rw [h]
  · intro s1 s2 host p1 p2 h1 h2 hh hp1 hp2
    unfold get_domain_hash
    rw [netloc_make s1 host p1 h1 hh hp1, netloc_make s2 host p2 h2 hh hp2]

/-- Witness for the amended C7: scheme and path variations of
`example.com` hash identically. -/
theorem site_identity_host_keyed_witness :
    validScheme "http" = true ∧ validScheme "https" = true ∧
    validHost "example.com" = true ∧ validPath "/a" = true ∧ validPath "/b?q=1" = true ∧
    get_domain_hash ("http" ++ "://" ++ "example.com" ++ "/a")
      = get_domain_hash ("https" ++ "://" ++ "example.com" ++ "/b?q=1") :=
  ⟨by decide, by decide, by decide, by decide, by decide,
   site_identity_host_keyed.2 "http" "https" "example.com" "/a" "/b?q=1"
     (by decide) (by decide) (by decide) (by decide) (by decide)⟩

/-! ## Claims about the crawler -/

theorem crawlLoop_nil (fetch : String → FetchOutcome) (opts : CrawlOptions)
    (startUrl : String) (visited : List String) (results : List PageResult) :
    crawlLoop fetch opts startUrl visited [] results = results := by
  rw [crawlLoop]

theorem crawlLoop_stop (fetch : String → FetchOutcome) (opts : CrawlOptions)
    (startUrl url : String) (visited rest : List String) (results : List PageResult)
    (h : ¬results.length < opts.maxPages) :
    crawlLoop fetch opts startUrl visited (url :: rest) results = results := by
  rw [crawlLoop]
  simp [h]

theorem crawlLoop_visited (fetch : String → FetchOutcome) (opts : CrawlOptions)
    (startUrl url : String) (visited rest : List String) (results : List PageResult)
    (hlt : results.length < opts.maxPages) (hmem : url ∈ visited) :
    crawlLoop fetch opts startUrl visited (url :: rest) results
      = crawlLoop fetch opts startUrl visited rest results := by
  rw [crawlLoop]
  simp [hlt, hmem]

theorem crawlLoop_excluded (fetch : String → FetchOutcome) (opts : CrawlOptions)
    (startUrl url : String) (visited rest : List String) (results : List PageResult)
    (hlt : results.length < opts.maxPages) (hmem : url ∉ visited)
    (hex : (!opts.excludePatterns.isEmpty
        && opts.excludePatterns.any (fun p => containsSub p url)) = true) :
    crawlLoop fetch opts startUrl visited (url :: rest) results
      = crawlLoop fetch opts startUrl (url :: visited) rest results := by
  rw [crawlLoop]
  simp [hlt, hmem, hex]

theorem crawlLoop_unincluded (fetch : String → FetchOutcome) (opts : CrawlOptions)
    (startUrl url : String) (visited rest : List String) (results : List PageResult)
    (hlt : results.length < opts.maxPages) (hmem : url ∉ visited)
    (hex : (!opts.excludePatterns.isEmpty
        && opts.excludePatterns.any (fun p => containsSub p url)) = false)
    (hinc : (!opts.includePatterns.isEmpty
        && !opts.includePatterns.any (fun p => containsSub p url)) = true) :
    crawlLoop fetch opts startUrl visited (url :: rest) results
      = crawlLoop fetch opts startUrl (url :: visited) rest results := by
  rw [crawlLoop]
  simp [hlt, hmem, hex, hinc]

theorem crawlLoop_fetch_ok (fetch : String → FetchOutcome) (opts : CrawlOptions)
    (startUrl url : String) (visited rest : List String) (results : List PageResult)
    (links : Option (List String))
    (hlt : results.length < opts.maxPages) (hmem : url ∉ visited)
    (hex : (!opts.excludePatterns.isEmpty
        && opts.excludePatterns.any (fun p => containsSub p url)) = false)
    (hinc : (!opts.includePatterns.isEmpty
        && !opts.includePatterns.any (fun p => containsSub p url)) = false)
    (hfetch : fetch url = .ok links) :
    crawlLoop fetch opts startUrl visited (url :: rest) results
      = crawlLoop fetch opts startUrl (url :: visited)
          (rest ++ (if opts.followLinks then
              (links.getD []).filter
                (fun l => l.startsWith startUrl && !(url :: visited).contains l)
            else []))
          (results ++ [⟨url, .success, none⟩]) := by
  rw [crawlLoop]
  simp [hlt, hmem, hex, hinc, hfetch]

theorem crawlLoop_fetch_err (fetch : String → FetchOutcome) (opts : CrawlOptions)
    (startUrl url : String) (visited rest : List String) (results : List PageResult)
    (msg : String)
    (hlt : results.length < opts.maxPages) (hmem : url ∉ visited)
    (hex : (!opts.excludePatterns.isEmpty
        && opts.excludePatterns.any (fun p => containsSub p url)) = false)
    (hinc : (!opts.includePatterns.isEmpty
        && !opts.includePatterns.any (fun p => containsSub p url)) = false)
    (hfetch : fetch url = .err msg) :
    crawlLoop fetch opts startUrl visited (url :: rest) results
      = crawlLoop fetch opts startUrl (url :: visited) rest
          (results ++ [⟨url, .failed, some msg⟩]) := by
  rw [crawlLoop]
  simp [hlt, hmem, hex, hinc, hfetch]

/-- The loop never grows the results list beyond the page budget. -/
theorem crawlLoop_length_le (fetch : String → FetchOutcome) (opts : CrawlOptions)
    (startUrl : String) (visited toVisit : List String) (results : List PageResult) :
    results.length ≤ opts.maxPages →
    (crawlLoop fetch opts startUrl visited toVisit results).length ≤ opts.maxPages := by
  induction visited, toVisit, results using crawlLoop.induct fetch opts startUrl with
  | case1 visited results =>
    intro h
    rw [crawlLoop_nil]
    exact h
  | case2 visited results url rest hlt hmem ih =>
    intro h
    rw [crawlLoop_visited _ _ _ _ _ _ _ hlt hmem]
    exact ih h
  | case3 visited results url rest hlt hmem v2 hex ih =>
    intro h
    rw [crawlLoop_excluded _ _ _ _ _ _ _ hlt hmem hex]
    exact ih h
  | case4 visited results url rest hlt hmem v2 hexneg hinc ih =>
    intro h
    rw [crawlLoop_unincluded _ _ _ _ _ _ _ hlt hmem (by simpa using hexneg) hinc]
    exact ih h
  | case5 visited results url rest hlt hmem v2 hexneg hincneg links hfetch nl ih =>
    intro h
    rw [crawlLoop_fetch_ok _ _ _ _ _ _ _ _ hlt hmem (by simpa using hexneg)
      (by simpa using hincneg) hfetch]
    exact ih (by simp; omega)
  | case6 visited results url rest hlt hmem v2 hexneg hincneg msg hfetch ih =>
    intro h
    rw [crawlLoop_fetch_err _ _ _ _ _ _ _ _ hlt hmem (by simpa using hexneg)
      (by simpa using hincneg) hfetch]
    exact ih (by simp; omega)
  | case7 visited results url rest hlt =>
    intro h
    rw [crawlLoop_stop _ _ _ _ _ _ _ hlt]
    exact h

/-- Every recorded URL was first added to the visited set, so the loop never
records (hence never fetches) the same URL twice. -/
theorem crawlLoop_nodup (fetch : String → FetchOutcome) (opts : CrawlOptions)
    (startUrl : String) (visited toVisit : List String) (results : List PageResult) :
    (results.map PageResult.url).Nodup → (∀ r ∈ results, r.url ∈ visited) →
    ((crawlLoop fetch opts startUrl visited toVisit results).map PageResult.url).Nodup := by
  induction visited, toVisit, results using crawlLoop.induct fetch opts startUrl with
  | case1 visited results =>
    intro h1 _
    rw [crawlLoop_nil]
    exact h1
  | case2 visited results url rest hlt hmem ih =>
    intro h1 h2
    rw [crawlLoop_visited _ _ _ _ _ _ _ hlt hmem]
    exact ih h1 h2
  | case3 visited results url rest hlt hmem v2 hex ih =>
    intro h1 h2
    rw [crawlLoop_excluded _ _ _ _ _ _ _ hlt hmem hex]
    exact ih h1 (fun r hr => List.mem_cons_of_mem _ (h2 r hr))
  | case4 visited results url rest hlt hmem v2 hexneg hinc ih =>
    intro h1 h2
    rw [crawlLoop_unincluded _ _ _ _ _ _ _ hlt hmem (by simpa using hexneg) hinc]
    exact ih h1 (fun r hr => List.mem_cons_of_mem _ (h2 r hr))
  | case5 visited results url rest hlt hmem v2 hexneg hincneg links hfetch nl ih =>
    intro h1 h2
    rw [crawlLoop_fetch_ok _ _ _ _ _ _ _ _ hlt hmem (by simpa using hexneg)
      (by simpa using hincneg) hfetch]
    apply ih
    · simp only [List.map_append, List.map_cons, List.map_nil]
      rw [List.nodup_append]
      refine ⟨h1, List.nodup_singleton _, ?_⟩
      intro a ha hb
      simp only [List.mem_singleton] at hb
      subst hb
      obtain ⟨r, hr, hru⟩ := List.mem_map.mp ha
      exact hmem (hru ▸ h2 r hr)
    · intro r hr
      rcases List.mem_append.mp hr with hr | hr
      · exact List.mem_cons_of_mem _ (h2 r hr)
      · simp only [List.mem_singleton] at hr
        subst hr
        exact List.mem_cons_self _ _
  | case6 visited results url rest hlt hmem v2 hexneg hincneg msg hfetch ih =>
    intro h1 h2
    rw [crawlLoop_fetch_err _ _ _ _ _ _ _ _ hlt hmem (by simpa using hexneg)
      (by simpa using hincneg) hfetch]
    apply ih
    · simp only [List.map_append, List.map_cons, List.map_nil]
      rw [List.nodup_append]
      refine ⟨h1, List.nodup_singleton _, ?_⟩
      intro a ha hb
      simp only [List.mem_singleton] at hb
      subst hb
      obtain ⟨r, hr, hru⟩ := List.mem_map.mp ha
      exact hmem (hru ▸ h2 r hr)
    · intro r hr
      rcases List.mem_append.mp hr with hr | hr
      · exact List.mem_cons_of_mem _ (h2 r hr)
      · simp only [List.mem_singleton] at hr
        subst hr
        exact List.mem_cons_self _ _
  | case7 visited results url rest hlt =>
    intro h1 _
    rw [crawlLoop_stop _ _ _ _ _ _ _ hlt]
    exact h1

/-- A URL matching an exclude pattern is filtered before the fetch, so no
recorded result ever matches an exclude pattern. -/
theorem crawlLoop_exclude_free (fetch : String → FetchOutcome) (opts : CrawlOptions)
    (startUrl : String) (visited toVisit : List String) (results : List PageResult) :
    (∀ r ∈ results, ∀ pat ∈ opts.excludePatterns, containsSub pat r.url = false) →
    ∀ r ∈ crawlLoop fetch opts startUrl visited toVisit results,
      ∀ pat ∈ opts.excludePatterns, containsSub pat r.url = false := by
  induction visited, toVisit, results using crawlLoop.induct fetch opts startUrl with
  | case1 visited results =>
    intro h
    rw [crawlLoop_nil]
    exact h
  | case2 visited results url rest hlt hmem ih =>
    intro h
    rw [crawlLoop_visited _ _ _ _ _ _ _ hlt hmem]
    exact ih h
  | case3 visited results url rest hlt hmem v2 hex ih =>
    intro h
    rw [crawlLoop_excluded _ _ _ _ _ _ _ hlt hmem hex]
    exact ih h
  | case4 visited results url rest hlt hmem v2 hexneg hinc ih =>
    intro h
    rw [crawlLoop_unincluded _ _ _ _ _ _ _ hlt hmem (by simpa using hexneg) hinc]
    exact ih h
  | case5 visited results url rest hlt hmem v2 hexneg hincneg links hfetch nl ih =>
    intro h
    rw [crawlLoop_fetch_ok _ _ _ _ _ _ _ _ hlt hmem (by simpa using hexneg)
      (by simpa using hincneg) hfetch]
    apply ih
    intro r hr pat hpat
    rcases List.mem_append.mp hr with hr | hr
    · exact h r hr pat hpat
    · simp only [List.mem_singleton] at hr
      subst hr
      by_contra hc
      rw [Bool.not_eq_false] at hc
      apply hexneg
      have hne : opts.excludePatterns ≠ [] := List.ne_nil_of_mem hpat
      simp [List.isEmpty_iff, hne, List.any_eq_true]
      exact ⟨pat, hpat, hc⟩
  | case6 visited results url rest hlt hmem v2 hexneg hincneg msg hfetch ih =>
    intro h
    rw [crawlLoop_fetch_err _ _ _ _ _ _ _ _ hlt hmem (by simpa using hexneg)
      (by simpa using hincneg) hfetch]
    apply ih
    intro r hr pat hpat
    rcases List.mem_append.mp hr with hr | hr
    · exact h r hr pat hpat
    · simp only [List.mem_singleton] at hr
      subst hr
      by_contra hc
      rw [Bool.not_eq_false] at hc
      apply hexneg
      have hne : opts.excludePatterns ≠ [] := List.ne_nil_of_mem hpat
      simp [List.isEmpty_iff, hne, List.any_eq_true]
      exact ⟨pat, hpat, hc⟩
  | case7 visited results url rest hlt =>
    intro h
    rw [crawlLoop_stop _ _ _ _ _ _ _ hlt]
    exact h

/-- A fetch oracle that always raises. -/
def wFetch : String → FetchOutcome := fun _ => .err "x"

/-- Crawl options with a budget of 2, an include pattern and an exclude
pattern. -/
def wOpts : CrawlOptions := ⟨2, ["http"], ["/admin"], false⟩

/-- C8: a crawl records at most `maxPages` page results (so at most
`maxPages` pages count as total or successful) regardless of frontier size,
no URL is ever recorded — hence fetched — twice, and popping an
already-visited URL leaves both the results and the budget untouched. -/
theorem crawl_budget_and_dedup (fetch : String → FetchOutcome) (startUrl : String)
    (opts : CrawlOptions) :
    (crawl_site fetch startUrl opts).pages.length ≤ opts.maxPages ∧
    (crawl_site fetch startUrl opts).stats.totalPages ≤ opts.maxPages ∧
    (crawl_site fetch startUrl opts).stats.successfulPages ≤ opts.maxPages ∧
    ((crawl_site fetch startUrl opts).pages.map PageResult.url).Nodup ∧
    (∀ (visited rest : List String) (results : List PageResult) (url : String),
      url ∈ visited →
      crawlLoop fetch opts startUrl visited (url :: rest) results
        = crawlLoop fetch opts startUrl visited rest results) := by
  have hlen := crawlLoop_length_le fetch opts startUrl [] [startUrl] [] (by simp)
  have hnd := crawlLoop_nodup fetch opts startUrl [] [startUrl] [] (by simp) (by simp)
  refine ⟨by simpa [crawl_site] using hlen, by simpa [crawl_site] using hlen, ?_, ?_, ?_⟩
  · have h1 : (crawl_site fetch startUrl opts).stats.successfulPages
        = (crawlLoop fetch opts startUrl [] [startUrl] []).countP
            (fun r => r.status == PageStatus.success) := by
      simp [crawl_site]
    rw [h1]
    exact le_trans (List.countP_le_length _) hlen
  · simpa [crawl_site] using hnd
  · intro visited rest results url hmem
    by_cases hlt : results.length < opts.maxPages
    · exact crawlLoop_visited _ _ _ _ _ _ _ hlt hmem
    · rw [crawlLoop_stop _ _ _ _ _ _ _ hlt]
      cases rest with
      | nil => rw [crawlLoop_nil]
      | cons u2 r2 => rw [crawlLoop_stop _ _ _ _ _ _ _ hlt]

/-- Witness for C8 on a concrete crawl and a concrete visited pop. -/
theorem crawl_budget_and_dedup_witness :
    (crawl_site wFetch "http://s/" wOpts).pages.length ≤ wOpts.maxPages ∧
    ((crawl_site wFetch "http://s/" wOpts).pages.map PageResult.url).Nodup ∧
    ("a" ∈ ["a"] ∧
     crawlLoop wFetch wOpts "http://s/" ["a"] ["a"] []
       = crawlLoop wFetch wOpts "http://s/" ["a"] [] []) := by
  have T := crawl_budget_and_dedup wFetch "http://s/" wOpts
  exact ⟨T.1, T.2.2.2.1, by decide, T.2.2.2.2 ["a"] [] [] "a" (by decide)⟩

/-- C9: no URL matching an exclude pattern is ever fetched or counted — every
recorded page result fails every exclude pattern, whether or not an include
pattern also matches (the exclude filter runs first). -/
theorem crawl_exclude_precedence (fetch : String → FetchOutcome) (startUrl : String)
    (opts : CrawlOptions) :
    ∀ r ∈ (crawl_site fetch startUrl opts).pages,
      ∀ pat ∈ opts.excludePatterns, containsSub pat r.url = false := by
  intro r hr pat hpat
  have hfree := crawlLoop_exclude_free fetch opts startUrl [] [startUrl] [] (by simp)
  apply hfree r ?_ pat hpat
  simpa [crawl_site] using hr

/-- Witness for C9: a crawl whose start URL matches the include pattern and
no exclude pattern; its single recorded page fails `/admin`. -/
theorem crawl_exclude_precedence_witness :
    (⟨"http://s/", PageStatus.failed, some "x"⟩ : PageResult)
        ∈ (crawl_site wFetch "http://s/" wOpts).pages ∧
    "/admin" ∈ wOpts.excludePatterns ∧
    containsSub "/admin" "http://s/" = false := by
  have h1 : crawlLoop wFetch wOpts "http://s/" [] ["http://s/"] []
      = [⟨"http://s/", PageStatus.failed, some "x"⟩] := by
    rw [crawlLoop_fetch_err wFetch wOpts "http://s/" "http://s/" [] [] [] "x"
      (by decide) (by decide) (by decide) (by decide) rfl]
    rw [crawlLoop_nil]
    rfl
  have hmem : (⟨"http://s/", PageStatus.failed, some "x"⟩ : PageResult)
      ∈ (crawl_site wFetch "http://s/" wOpts).pages := by
    simp [crawl_site, h1]
  exact ⟨hmem, by decide,
    crawl_exclude_precedence wFetch "http://s/" wOpts _ hmem "/admin" (by decide)⟩
